import Mathlib

/-! Verification of the signed random-number web service (rng-web).

The development shallowly embeds the core of `src/apps/rng-web/server.js`
(the generate endpoint `GET /api/rng`, the proof store `storeSignedResult` /
`getSignedResult`) and the verification endpoint `GET /api/verify/:id` of the
variant in `src/unnamed/part_001`.  JSON documents are modelled structurally
(field order preserved, so structural equality of a `Json` value corresponds
to byte equality of its serialization); JavaScript numbers are modelled
exactly as rationals together with NaN and the infinities (IEEE-754 rounding
of parsed literal values is not modelled; all claims are about exactly
representable values).
-/

namespace RngWeb

/-- Structural model of a JSON document, as produced by parsing a response
body.  Object fields keep their order, so two `Json` values are equal iff
their serializations agree byte for byte. -/
inductive Json where
  | null : Json
  | bool (b : Bool) : Json
  | num (q : ℚ) : Json
  | str (s : String) : Json
  | arr (elems : List Json) : Json
  | obj (fields : List (String × Json)) : Json

/-- Truthiness of a JSON value under JavaScript coercion rules:
null, false, 0 and the empty string are falsy, everything else truthy. -/
def Json.truthy : Json → Bool
  | .null => false
  | .bool b => b
  | .num q => decide (q ≠ 0)
  | .str s => decide (s ≠ "")
  | .arr _ => true
  | .obj _ => true

/-- Truthiness of a possibly-undefined JavaScript value (`none` stands for
undefined, for example a failed body parse or a missing field). -/
def jsTruthy : Option Json → Bool
  | none => false
  | some v => v.truthy

/-- Property access `v.k` on a JSON value: defined on objects, undefined
(`none`) on every other shape, matching JavaScript member access for the
property names used by the handlers. -/
def Json.field : Json → String → Option Json
  | .obj fs, k => fs.lookup k
  | _, _ => none

/-- Optional-chaining access `v?.k`. -/
def optField (j : Option Json) (k : String) : Option Json :=
  j.bind (fun v => v.field k)

/-- Indexing `v?.[i]`: element of an array, character of a string, or the
property named by the decimal rendering of `i` on an object. -/
def Json.idx : Json → Nat → Option Json
  | .arr xs, i => xs.get? i
  | .obj fs, i => fs.lookup (toString i)
  | .str s, i => (s.data.get? i).map (fun c => Json.str (String.mk [c]))
  | _, _ => none

/-- Optional-chaining indexing `v?.[i]`. -/
def optIdx (j : Option Json) (i : Nat) : Option Json :=
  j.bind (fun v => v.idx i)

/-- Check `Number.isInteger(v)` on a possibly-undefined JSON value: true
exactly for a JSON number whose value is an integer. -/
def isIntegerJson : Option Json → Bool
  | some (.num q) => q.isInt
  | _ => false

/-- Check `typeof v === string` on a possibly-undefined JSON value. -/
def isStringJson : Option Json → Bool
  | some (.str _) => true
  | _ => false

/-- Value of the JavaScript expression `j && (j.error || j)` used by the
part_001 handlers to build the `detail` field of an error response. -/
def jsErrDetail : Option Json → Json
  | none => Json.null
  | some v =>
    if v.truthy then
      match v.field "error" with
      | some e => if e.truthy then e else v
      | none => v
    else v

/-- Result of JavaScript numeric coercion: NaN, a signed infinity, or a
finite value (modelled exactly as a rational). -/
inductive JsNum where
  | nan : JsNum
  | inf (neg : Bool) : JsNum
  | num (q : ℚ) : JsNum
deriving DecidableEq

/-- Check `Number.isInteger` on a coerced number: true exactly for a finite
value that is an integer. -/
def JsNum.isInt : JsNum → Bool
  | .num q => q.isInt
  | _ => false

/-- View a coerced number as a mathematical integer when `Number.isInteger`
holds of it. -/
def JsNum.toIntOpt : JsNum → Option Int
  | .num q => if q.isInt then some q.num else none
  | _ => none

/-- Whitespace characters stripped by `Number(string)` coercion (the common
ASCII whitespace plus no-break space). -/
def isJsWhitespace (c : Char) : Bool :=
  c = ' ' || c = '\t' || c = '\n' || c = '\r' || c = '\x0b' || c = '\x0c' || c = '\xa0'

/-- Strip leading and trailing whitespace. -/
def trimJs (cs : List Char) : List Char :=
  ((cs.dropWhile isJsWhitespace).reverse.dropWhile isJsWhitespace).reverse

/-- Numeric value of a digit in the given base, if it is one. -/
def digitVal (base : Nat) (c : Char) : Option Nat :=
  let v : Option Nat :=
    if c.isDigit then some (c.toNat - 48)
    else if 97 ≤ c.toNat ∧ c.toNat ≤ 102 then some (c.toNat - 87)
    else if 65 ≤ c.toNat ∧ c.toNat ≤ 70 then some (c.toNat - 55)
    else none
  match v with
  | some n => if n < base then some n else none
  | none => none

/-- Value of a nonempty all-digit string in the given base; `none` if the
string is empty or contains a non-digit. -/
def digitsVal (base : Nat) : List Char → Option Nat
  | [] => none
  | [c] => digitVal base c
  | c :: rest => do
    let d ← digitVal base c
    let r ← digitsVal base rest
    pure (d * base ^ rest.length + r)

/-- Value of a possibly-empty digit string in base 10 (empty means 0),
`none` if a non-digit occurs. -/
def decDigitsVal (cs : List Char) : Option Nat :=
  if cs = [] then some 0 else digitsVal 10 cs

/-- Exponent part of a decimal numeric literal.  Accepts the empty remainder
(exponent 0) or `e`/`E` followed by an optionally signed nonempty digit
string covering the whole remainder; anything else is a parse failure. -/
def parseExpPart : List Char → Option Int
  | [] => some 0
  | c :: rest =>
    if c = 'e' ∨ c = 'E' then
      match rest with
      | '+' :: ds => (digitsVal 10 ds).map (fun n => (n : Int))
      | '-' :: ds => (digitsVal 10 ds).map (fun n => -(n : Int))
      | ds => (digitsVal 10 ds).map (fun n => (n : Int))
    else none

/-- Exact value of a decimal mantissa `m` scaled by `10 ^ k`. -/
def decScale (m : Nat) (k : Int) : ℚ :=
  match k with
  | .ofNat n => ((m * 10 ^ n : Nat) : ℚ)
  | .negSucc n => (m : ℚ) / ((10 ^ (n + 1) : Nat) : ℚ)

/-- Unsigned decimal literal of `Number(string)` coercion: integer digits,
optional fraction after a dot, optional exponent, with at least one digit in
the integer or fraction part.  The value is exact (a rational): the mantissa
digits scaled by ten to the exponent minus the fraction length. -/
def parseUnsignedDec (cs : List Char) : Option ℚ :=
  let ip := cs.takeWhile Char.isDigit
  let r1 := cs.dropWhile Char.isDigit
  let hasDot : Bool := match r1 with | '.' :: _ => true | _ => false
  let afterDot := match r1 with | '.' :: rest => rest | _ => []
  let fp := if hasDot then afterDot.takeWhile Char.isDigit else []
  let r2 := if hasDot then afterDot.dropWhile Char.isDigit else r1
  match parseExpPart r2 with
  | none => none
  | some e =>
    if ip = [] ∧ fp = [] then none
    else
      let m : Nat := (decDigitsVal ip).getD 0 * 10 ^ fp.length + (decDigitsVal fp).getD 0
      some (decScale m (e - fp.length))

/-- Mantissa-and-sign part of the string-to-number coercion: the literal
`Infinity` or an unsigned decimal literal, negated when a minus sign was
consumed. -/
def jsParseSigned (cs : List Char) (neg : Bool) : JsNum :=
  if cs = ['I', 'n', 'f', 'i', 'n', 'i', 't', 'y'] then JsNum.inf neg
  else
    match parseUnsignedDec cs with
    | some q => JsNum.num (if neg then -q else q)
    | none => JsNum.nan

/-- Nonempty digit string in the given radix, as a number; NaN otherwise. -/
def radixNum (base : Nat) (cs : List Char) : JsNum :=
  match digitsVal base cs with
  | some n => JsNum.num n
  | none => JsNum.nan

/-- The JavaScript coercion `Number(s)` on a string: trim whitespace, empty
means 0, `0x`/`0o`/`0b` prefixes select a radix, otherwise an optionally
signed decimal literal or `Infinity`; any other shape is NaN. -/
def jsStringToNumber (s : String) : JsNum :=
  match trimJs s.data with
  | [] => JsNum.num 0
  | '0' :: c :: rest =>
    if c = 'x' ∨ c = 'X' then radixNum 16 rest
    else if c = 'o' ∨ c = 'O' then radixNum 8 rest
    else if c = 'b' ∨ c = 'B' then radixNum 2 rest
    else jsParseSigned ('0' :: c :: rest) false
  | '+' :: rest => jsParseSigned rest false
  | '-' :: rest => jsParseSigned rest true
  | t => jsParseSigned t false

/-- The coercion `Number(req.query.x)` applied to an optional query
parameter: a missing parameter is `undefined` and coerces to NaN. -/
def jsQueryNumber : Option String → JsNum
  | none => JsNum.nan
  | some s => jsStringToNumber s

/-- Sixteen bytes of entropy drawn from the cryptographically strong random
source backing `crypto.randomUUID`. -/
structure Entropy16 where
  b0 : Nat
  b1 : Nat
  b2 : Nat
  b3 : Nat
  b4 : Nat
  b5 : Nat
  b6 : Nat
  b7 : Nat
  b8 : Nat
  b9 : Nat
  b10 : Nat
  b11 : Nat
  b12 : Nat
  b13 : Nat
  b14 : Nat
  b15 : Nat
deriving DecidableEq

/-- All sixteen entropy values are bytes. -/
def Entropy16.inRange (e : Entropy16) : Prop :=
  e.b0 < 256 ∧ e.b1 < 256 ∧ e.b2 < 256 ∧ e.b3 < 256 ∧ e.b4 < 256 ∧ e.b5 < 256 ∧
  e.b6 < 256 ∧ e.b7 < 256 ∧ e.b8 < 256 ∧ e.b9 < 256 ∧ e.b10 < 256 ∧ e.b11 < 256 ∧
  e.b12 < 256 ∧ e.b13 < 256 ∧ e.b14 < 256 ∧ e.b15 < 256

instance (e : Entropy16) : Decidable e.inRange := by
  unfold Entropy16.inRange; infer_instance

/-- RFC 4122 version-4 masking applied by `crypto.randomUUID`: the high
nibble of byte 6 becomes the version `4` and the top two bits of byte 8
become the variant `10`; all other entropy bits pass through. -/
def uuidMask (e : Entropy16) : Entropy16 :=
  { e with b6 := 64 + e.b6 % 16, b8 := 128 + e.b8 % 64 }

/-- Lowercase hexadecimal digit of a value below 16. -/
def hexChar (n : Nat) : Char :=
  if n < 10 then Char.ofNat (48 + n) else Char.ofNat (87 + n)

/-- Two lowercase hexadecimal digits of a byte. -/
def byteHexChars (b : Nat) : List Char :=
  [hexChar (b / 16), hexChar (b % 16)]

/-- Character sequence of the UUID produced by `crypto.randomUUID` from the
given entropy: the masked bytes in lowercase hex, hyphenated 8-4-4-4-12. -/
def uuidChars (e : Entropy16) : List Char :=
  let m := uuidMask e
  byteHexChars m.b0 ++ byteHexChars m.b1 ++ byteHexChars m.b2 ++ byteHexChars m.b3 ++
  ['-'] ++ byteHexChars m.b4 ++ byteHexChars m.b5 ++
  ['-'] ++ byteHexChars m.b6 ++ byteHexChars m.b7 ++
  ['-'] ++ byteHexChars m.b8 ++ byteHexChars m.b9 ++
  ['-'] ++ byteHexChars m.b10 ++ byteHexChars m.b11 ++ byteHexChars m.b12 ++
  byteHexChars m.b13 ++ byteHexChars m.b14 ++ byteHexChars m.b15

/-- Model of `crypto.randomUUID()`: a version-4 UUID string computed from
sixteen bytes of cryptographically strong entropy and from nothing else (no
time, no counter, no store state). -/
def randomUUID (e : Entropy16) : String :=
  String.mk (uuidChars e)

/-- One stored proof: the provider random block and signature exactly as
received, plus the wall-clock insertion time (`{ ...obj, storedAt: Date.now() }`). -/
structure StoredEntry where
  random : Json
  signature : String
  storedAt : Nat

/-- The in-memory proof store `signedStore`, a map from reference strings to
stored proofs, modelled as an association list (the first binding of a key
is its value). -/
abbrev SignedStore := List (String × StoredEntry)

/-- Lookup `signedStore.get(id)`. -/
def storeLookup (store : SignedStore) (id : String) : Option StoredEntry :=
  match store with
  | [] => none
  | (k, v) :: rest => if k = id then some v else storeLookup rest id

/-- Deletion `signedStore.delete(id)`: drops every binding of `id`. -/
def storeDelete (store : SignedStore) (id : String) : SignedStore :=
  match store with
  | [] => []
  | (k, v) :: rest => if k = id then storeDelete rest id else (k, v) :: storeDelete rest id

/-- Insertion `signedStore.set(id, v)`: binds `id` to `v`, replacing any
previous binding. -/
def storeSet (store : SignedStore) (id : String) (v : StoredEntry) : SignedStore :=
  (id, v) :: storeDelete store id

/-- The fixed time-to-live of a stored proof: six hours in milliseconds. -/
def SIGNED_TTL_MS : Nat := 6 * 60 * 60 * 1000

/-- The proof-store put operation `storeSignedResult`: draw a fresh id from
`crypto.randomUUID()`, record the proof with `storedAt = Date.now()`, and
return the id. -/
def storeSignedResult (entropy : Entropy16) (random : Json) (signature : String)
    (now : Nat) (store : SignedStore) : String × SignedStore :=
  let id := randomUUID entropy
  (id, storeSet store id ⟨random, signature, now⟩)

/-- The proof-store get operation `getSignedResult`: absent means not found;
an entry older than the time-to-live is deleted and treated as not found;
otherwise the entry is returned as is.  The pair carries the store as left
after the operation.  Times are naturals, which agrees with the JavaScript
comparison since a clock reading before `storedAt` makes the age nonpositive
there and zero here, both below the positive time-to-live. -/
def getSignedResult (id : String) (store : SignedStore) (now : Nat) :
    Option StoredEntry × SignedStore :=
  match storeLookup store id with
  | none => (none, store)
  | some v =>
    if now - v.storedAt > SIGNED_TTL_MS then (none, storeDelete store id)
    else (some v, store)

/-- Uppercase hexadecimal digit of a value below 16. -/
def hexCharUpper (n : Nat) : Char :=
  if n < 10 then Char.ofNat (48 + n) else Char.ofNat (55 + n)

/-- Characters that `encodeURIComponent` leaves unescaped. -/
def isUriUnreserved (c : Char) : Bool :=
  c.isAlphanum || c = '-' || c = '_' || c = '.' || c = '!' || c = '~' ||
  c = '*' || c = Char.ofNat 39 || c = '(' || c = ')'

/-- Percent-encoding of one character as in `encodeURIComponent`: unreserved
characters pass through, every other character becomes the percent-escaped
bytes of its UTF-8 encoding. -/
def encodeURIComponentChar (c : Char) : List Char :=
  if isUriUnreserved c then [c]
  else
    (String.toUTF8 (String.mk [c])).toList.foldr
      (fun b acc => '%' :: hexCharUpper (b.toNat / 16) :: hexCharUpper (b.toNat % 16) :: acc) []

/-- Model of `encodeURIComponent`. -/
def encodeURIComponentJs (s : String) : String :=
  String.mk (s.data.foldr (fun c acc => encodeURIComponentChar c ++ acc) [])

/-- Outcome of an `await fetch(...)` that returned a response: the `ok` flag,
the numeric status, and the body as parsed by `r.json().catch(() => null)`
(`none` models a parse failure, which the handlers observe as null). -/
structure FetchOutcome where
  ok : Bool
  status : Nat
  body : Option Json

/-- Behavior of the single provider call a handler makes: either the fetch
(or body read) threw, or it produced a response. -/
inductive Transport where
  | threw (msg : String)
  | responded (resp : FetchOutcome)

/-- Everything observable about one run of the generate handler: the HTTP
status and JSON body sent to the client, the store left behind, the JSON-RPC
request bodies sent to the provider, and the reference issued (`storeId`,
`none` when no proof was stored; when present it also appears inside the
body through `verifyUrl` and `resultUrl`). -/
structure RngOutcome where
  status : Nat
  body : Json
  store : SignedStore
  calls : List Json
  ref : Option String

/-- The `apiKey` field of the generation request, present exactly when the
credential environment variable is set (`JSON.stringify` drops a property
whose value is undefined). -/
def apiKeyField : Option String → List (String × Json)
  | some k => [("apiKey", Json.str k)]
  | none => []

/-- A singleton field when the value is present, nothing when it is
undefined (`JSON.stringify` omits undefined properties). -/
def optJsonField (k : String) : Option Json → List (String × Json)
  | some v => [(k, v)]
  | none => []

/-- The JSON-RPC request body the generate handler sends to the provider:
method `generateSignedIntegers` with the credential, `n: 1`, the validated
bounds, `replacement: true`, `base: 10`, and `id: Date.now()`. -/
def generatePayload (apiKey : Option String) (mi ma : Int) (now : Nat) : Json :=
  Json.obj [("jsonrpc", Json.str "2.0"),
            ("method", Json.str "generateSignedIntegers"),
            ("params", Json.obj (apiKeyField apiKey ++
              [("n", Json.num 1), ("min", Json.num (mi : ℚ)), ("max", Json.num (ma : ℚ)),
               ("replacement", Json.bool true), ("base", Json.num 10)])),
            ("id", Json.num (now : ℚ))]

/-- The 400 response `{ ok: false, error: "Invalid min/max" }` of the
generate handler, leaving the store untouched and making no provider call. -/
def rngInvalidOutcome (store : SignedStore) : RngOutcome :=
  ⟨400, Json.obj [("ok", Json.bool false), ("error", Json.str "Invalid min/max")],
   store, [], none⟩

/-- The 502 response `{ ok: false, error: "Unexpected random.org payload" }`
of the generate handler, leaving the store untouched. -/
def rngUnexpectedOutcome (store : SignedStore) (payload : Json) : RngOutcome :=
  ⟨502, Json.obj [("ok", Json.bool false), ("error", Json.str "Unexpected random.org payload")],
   store, [payload], none⟩

/-- The 200 response body of the generate handler: the drawn value, the
echoed bounds, the source, the provider completion time and serial number
when present (`random?.completionTime`, `random?.serialNumber`), and the
verification and result links built from the issued reference. -/
def rngSuccessBody (v : ℚ) (mi ma : Int) (r : Json) (id : String) : Json :=
  Json.obj ([("ok", Json.bool true), ("value", Json.num v),
             ("min", Json.num (mi : ℚ)), ("max", Json.num (ma : ℚ)),
             ("source", Json.str "random.org")] ++
            optJsonField "completionTime" (r.field "completionTime") ++
            optJsonField "serialNumber" (r.field "serialNumber") ++
            [("verifyUrl", Json.str ("/verify/" ++ encodeURIComponentJs id)),
             ("resultUrl", Json.str ("/result/" ++ encodeURIComponentJs id))])

/-- Post-validation phase of `GET /api/rng` in `src/apps/rng-web/server.js`:
build the payload, perform the single provider call, check the response
(`!r.ok || !j || j.error`, then an integer first datum, a truthy random
block and a string signature), store the proof and answer 200, or answer
502 with the matching error body.  The triple match plus the inner test is
the JavaScript guard `!Number.isInteger(value) || !random ||
typeof signature !== "string"` split over the shapes that can satisfy it. -/
def rngUpstream (mi ma : Int) (apiKey : Option String) (tr : Transport)
    (store : SignedStore) (now : Nat) (entropy : Entropy16) : RngOutcome :=
  let payload := generatePayload apiKey mi ma now
  match tr with
  | .threw msg =>
    ⟨502, Json.obj [("ok", Json.bool false), ("error", Json.str "random.org call failed"),
                    ("message", Json.str msg)], store, [payload], none⟩
  | .responded resp =>
    if !resp.ok || !jsTruthy resp.body || jsTruthy (optField resp.body "error") then
      ⟨502, Json.obj [("ok", Json.bool false), ("error", Json.str "random.org error"),
                      ("detail", resp.body.getD Json.null)], store, [payload], none⟩
    else
      match optIdx (optField (optField (optField resp.body "result") "random") "data") 0,
            optField (optField resp.body "result") "random",
            optField (optField resp.body "result") "signature" with
      | some (Json.num v), some r, some (Json.str sig) =>
        if !v.isInt || !r.truthy then rngUnexpectedOutcome store payload
        else
          let ps := storeSignedResult entropy r sig now store
          ⟨200, rngSuccessBody v mi ma r ps.1, ps.2, [payload], some ps.1⟩
      | _, _, _ => rngUnexpectedOutcome store payload

/-- The handler of `GET /api/rng` in `src/apps/rng-web/server.js`.  The
match on the two coerced query parameters mirrors the early return on
`!Number.isInteger(min) || !Number.isInteger(max) || max < min`: the
fallthrough case is exactly a non-integer coercion of either parameter. -/
def rngHandler (qmin qmax : Option String) (apiKey : Option String) (tr : Transport)
    (store : SignedStore) (now : Nat) (entropy : Entropy16) : RngOutcome :=
  match (jsQueryNumber qmin).toIntOpt, (jsQueryNumber qmax).toIntOpt with
  | some mi, some ma =>
    if ma < mi then rngInvalidOutcome store
    else rngUpstream mi ma apiKey tr store now entropy
  | _, _ => rngInvalidOutcome store

/-- Everything observable about one run of the verification handler. -/
structure VerifyOutcome where
  status : Nat
  body : Json
  store : SignedStore
  calls : List Json

/-- The JSON-RPC request body the verification handler sends to the
provider: method `verifySignature` whose params are exactly the stored
random block and signature, and `id: Date.now()`. -/
def verifyPayload (random : Json) (signature : String) (now : Nat) : Json :=
  Json.obj [("jsonrpc", Json.str "2.0"), ("method", Json.str "verifySignature"),
            ("params", Json.obj [("random", random), ("signature", Json.str signature)]),
            ("id", Json.num (now : ℚ))]

/-- The handler of `GET /api/verify/:id` in `src/unnamed/part_001`: look the
reference up (evicting an expired entry), replay the stored proof to the
provider, and report the coerced authenticity flag, or the matching 404 or
502 error body.  The process environment credential is passed as `_apiKey`
to record that the handler has access to it; the code never reads it. -/
def verifyHandler (id : String) (_apiKey : Option String) (tr : Transport)
    (store : SignedStore) (now : Nat) : VerifyOutcome :=
  match getSignedResult id store now with
  | (none, store2) =>
    ⟨404, Json.obj [("ok", Json.bool false), ("error", Json.str "unknown_or_expired")],
     store2, []⟩
  | (some v, store2) =>
    let payload := verifyPayload v.random v.signature now
    match tr with
    | .threw msg =>
      ⟨502, Json.obj [("ok", Json.bool false), ("error", Json.str "verifySignature call failed"),
                      ("message", Json.str msg)], store2, [payload]⟩
    | .responded resp =>
      if !resp.ok then
        ⟨502, Json.obj [("ok", Json.bool false), ("error", Json.str "random.org verify failed"),
                        ("status", Json.num (resp.status : ℚ)),
                        ("detail", resp.body.getD Json.null)], store2, [payload]⟩
      else if !jsTruthy resp.body || jsTruthy (optField resp.body "error") then
        ⟨502, Json.obj [("ok", Json.bool false), ("error", Json.str "random.org verify error"),
                        ("detail", jsErrDetail resp.body)], store2, [payload]⟩
      else
        ⟨200, Json.obj ([("ok", Json.bool true),
                         ("authenticity",
                          Json.bool (jsTruthy (optField (optField resp.body "result") "authenticity")))] ++
                        optJsonField "raw" (optField resp.body "result")), store2, [payload]⟩

/-! Helper lemmas about the association-list store. -/

theorem storeLookup_delete_ne (store : SignedStore) (id k : String) (h : k ≠ id) :
    storeLookup (storeDelete store id) k = storeLookup store k := by
  induction store with
  | nil => rfl
  | cons p rest ih =>
    obtain ⟨a, b⟩ := p
    by_cases hp : a = id
    · subst hp
      simp [storeDelete, storeLookup, Ne.symm h, ih]
    · by_cases hk : a = k
      · subst hk
        simp [storeDelete, storeLookup, hp]
      · simp [storeDelete, storeLookup, hp, hk, ih]

theorem storeLookup_delete_self (store : SignedStore) (id : String) :
    storeLookup (storeDelete store id) id = none := by
  induction store with
  | nil => rfl
  | cons p rest ih =>
    obtain ⟨a, b⟩ := p
    by_cases hp : a = id
    · simp [storeDelete, hp, ih]
    · simp [storeDelete, storeLookup, hp, ih]

theorem storeLookup_set_self (store : SignedStore) (id : String) (v : StoredEntry) :
    storeLookup (storeSet store id v) id = some v := by
  simp [storeLookup, storeSet]

theorem storeLookup_set_ne (store : SignedStore) (id k : String) (v : StoredEntry)
    (h : k ≠ id) :
    storeLookup (storeSet store id v) k = storeLookup store k := by
  simp only [storeSet, storeLookup, if_neg (Ne.symm h)]
  exact storeLookup_delete_ne store id k h

/-! Claim theorems. -/

/-- C3: the proof-store get operation returns not-found exactly when the
entry is absent or strictly older than the six-hour time-to-live; an expired
entry is deleted before not-found is returned; a reference never issued
resolves to the 404 unknown-or-expired outcome of the verification handler;
and a live entry is returned unchanged, with the store untouched. -/
theorem getSignedResult_spec (id : String) (store : SignedStore) (now : Nat)
    (k1 : Option String) (tr : Transport) :
    ((getSignedResult id store now).1 = none ↔
       storeLookup store id = none ∨
       ∃ v, storeLookup store id = some v ∧ now - v.storedAt > SIGNED_TTL_MS) ∧
    (∀ v, storeLookup store id = some v → now - v.storedAt > SIGNED_TTL_MS →
       (getSignedResult id store now).1 = none ∧
       (getSignedResult id store now).2 = storeDelete store id ∧
       storeLookup (getSignedResult id store now).2 id = none) ∧
    (storeLookup store id = none →
       (verifyHandler id k1 tr store now).status = 404 ∧
       (verifyHandler id k1 tr store now).body.field "error" =
         some (Json.str "unknown_or_expired")) ∧
    (∀ v, storeLookup store id = some v → ¬ now - v.storedAt > SIGNED_TTL_MS →
       (getSignedResult id store now).1 = some v ∧
       (getSignedResult id store now).2 = store) := by
  refine ⟨?_, ?_, ?_, ?_⟩
  · cases h : storeLookup store id with
    | none => simp [getSignedResult, h]
    | some v =>
      by_cases hexp : now - v.storedAt > SIGNED_TTL_MS
      · simp [getSignedResult, h, hexp]
      · simp [getSignedResult, h, hexp]
  · intro v h hexp
    refine ⟨?_, ?_, ?_⟩
    · simp [getSignedResult, h, hexp]
    · simp [getSignedResult, h, hexp]
    · simp [getSignedResult, h, hexp, storeLookup_delete_self]
  · intro h
    have hg : getSignedResult id store now = (none, store) := by
      simp [getSignedResult, h]
    constructor
    · simp only [verifyHandler, hg]
    · simp only [verifyHandler, hg, Json.field]
      rfl
  · intro v h hexp
    constructor
    · simp [getSignedResult, h, hexp]
    · simp [getSignedResult, h, hexp]

/-- Concrete instantiation of `getSignedResult_spec`: an entry stored at
time 0 is expired one millisecond past the time-to-live and evicted, and a
reference never issued yields a 404 unknown-or-expired response. -/
theorem getSignedResult_spec_witness :
    (getSignedResult "a" [("a", ⟨Json.null, "s", 0⟩)] (SIGNED_TTL_MS + 1)).1 = none ∧
    (getSignedResult "a" [("a", ⟨Json.null, "s", 0⟩)] (SIGNED_TTL_MS + 1)).2 =
      storeDelete [("a", ⟨Json.null, "s", 0⟩)] "a" ∧
    (verifyHandler "b" none (Transport.threw "m") [] 0).status = 404 ∧
    (getSignedResult "a" [("a", ⟨Json.null, "s", 0⟩)] SIGNED_TTL_MS).1 =
      some ⟨Json.null, "s", 0⟩ := by
  have h1 := (getSignedResult_spec "a" [("a", ⟨Json.null, "s", 0⟩)] (SIGNED_TTL_MS + 1)
    none (Transport.threw "m")).2.1 ⟨Json.null, "s", 0⟩ rfl (by decide)
  have h2 := (getSignedResult_spec "b" [] 0 none (Transport.threw "m")).2.2.1 rfl
  have h3 := (getSignedResult_spec "a" [("a", ⟨Json.null, "s", 0⟩)] SIGNED_TTL_MS
    none (Transport.threw "m")).2.2.2 ⟨Json.null, "s", 0⟩ rfl (by decide)
  exact ⟨h1.1, h1.2.1, h2.1, h3.1⟩

/-- C9: a stored proof is immutable.  The put operation, issuing a fresh
reference, leaves every existing entry in place with its fields unchanged
and binds the new reference to the given random block, signature and
insertion time; the get operation never adds an entry and never changes the
fields of any entry that remains (it can only evict), and the entry it
returns is exactly the one that was stored. -/
theorem signedStore_immutable (entropy : Entropy16) (r : Json) (sig : String)
    (now now2 : Nat) (store : SignedStore) (id : String)
    (hfresh : storeLookup store (randomUUID entropy) = none) :
    (∀ k v, storeLookup store k = some v →
       storeLookup (storeSignedResult entropy r sig now store).2 k = some v) ∧
    (storeLookup (storeSignedResult entropy r sig now store).2 (randomUUID entropy) =
       some ⟨r, sig, now⟩) ∧
    (∀ k v, storeLookup (getSignedResult id store now2).2 k = some v →
       storeLookup store k = some v) ∧
    (∀ v, (getSignedResult id store now2).1 = some v → storeLookup store id = some v) := by
  refine ⟨?_, ?_, ?_, ?_⟩
  · intro k v hk
    by_cases hke : k = randomUUID entropy
    · rw [hke] at hk
      rw [hk] at hfresh
      exact absurd hfresh (by simp)
    · rw [storeSignedResult]
      simpa [storeLookup_set_ne store (randomUUID entropy) k _ hke] using hk
  · rw [storeSignedResult]
    exact storeLookup_set_self store (randomUUID entropy) ⟨r, sig, now⟩
  · intro k v hk
    rcases h : storeLookup store id with _ | w
    · rwa [getSignedResult, h] at hk
    · by_cases hexp : now2 - w.storedAt > SIGNED_TTL_MS
      · simp only [getSignedResult, h, hexp, if_true, if_pos] at hk
        by_cases hke : k = id
        · rw [hke, storeLookup_delete_self] at hk
          exact absurd hk (by simp)
        · rwa [storeLookup_delete_ne store id k hke] at hk
      · simp only [getSignedResult, h, hexp, if_false, if_neg, not_false_iff] at hk
        exact hk
  · intro v hv
    rcases h : storeLookup store id with _ | w
    · rw [getSignedResult, h] at hv
      exact absurd hv (by simp)
    · by_cases hexp : now2 - w.storedAt > SIGNED_TTL_MS
      · simp only [getSignedResult, h, hexp, if_true, if_pos] at hv
        exact absurd hv (by simp)
      · simp only [getSignedResult, h, hexp, if_false, if_neg, not_false_iff] at hv
        simp only [Option.some.injEq] at hv
        exact congrArg some hv

/-- Concrete instantiation of `signedStore_immutable`: putting a fresh proof
next to an existing entry leaves the existing entry intact and binds the new
reference, and a get that evicts an expired entry does not touch the other
entry. -/
theorem signedStore_immutable_witness :
    storeLookup (storeSignedResult ⟨0, 0, 0, 0, 0, 0, 0, 0, 0, 0, 0, 0, 0, 0, 0, 0⟩
        (Json.num 5) "sg" 3 [("a", ⟨Json.null, "s", 1⟩)]).2 "a" = some ⟨Json.null, "s", 1⟩ ∧
    storeLookup (storeSignedResult ⟨0, 0, 0, 0, 0, 0, 0, 0, 0, 0, 0, 0, 0, 0, 0, 0⟩
        (Json.num 5) "sg" 3 [("a", ⟨Json.null, "s", 1⟩)]).2
        "00000000-0000-4000-8000-000000000000" = some ⟨Json.num 5, "sg", 3⟩ := by
  have h := signedStore_immutable ⟨0, 0, 0, 0, 0, 0, 0, 0, 0, 0, 0, 0, 0, 0, 0, 0⟩
    (Json.num 5) "sg" 3 0 [("a", ⟨Json.null, "s", 1⟩)] "a" (by rfl)
  refine ⟨h.1 "a" ⟨Json.null, "s", 1⟩ rfl, ?_⟩
  have h2 := h.2.1
  rwa [show randomUUID ⟨0, 0, 0, 0, 0, 0, 0, 0, 0, 0, 0, 0, 0, 0, 0, 0⟩ =
    "00000000-0000-4000-8000-000000000000" from rfl] at h2

/-- Characterization of the integer view of a coerced number: it is `some mi`
exactly when the coercion produced the integer value `mi`. -/
theorem toIntOpt_eq_some (x : JsNum) (mi : Int) :
    x.toIntOpt = some mi ↔ x = JsNum.num (mi : ℚ) := by
  cases x with
  | nan => simp [JsNum.toIntOpt]
  | inf b => simp [JsNum.toIntOpt]
  | num q =>
    simp only [JsNum.toIntOpt, JsNum.num.injEq]
    by_cases hq : q.isInt
    · simp only [hq, if_true, Option.some.injEq]
      constructor
      · rintro rfl
        exact Rat.eq_num_of_isInt hq
      · intro h
        rw [h, Rat.num_intCast]
    · simp only [hq, if_false, Bool.false_eq_true]
      constructor
      · intro h
        cases h
      · intro h
        exact absurd (by rw [h, Rat.isInt, Rat.den_intCast]; rfl) hq

/-- In every transport outcome the post-validation phase performs exactly one
provider call, with the canonical generation payload. -/
theorem rngUpstream_calls (mi ma : Int) (k : Option String) (tr : Transport)
    (store : SignedStore) (now : Nat) (e : Entropy16) :
    (rngUpstream mi ma k tr store now e).calls = [generatePayload k mi ma now] := by
  cases tr with
  | threw msg => rfl
  | responded resp =>
    simp only [rngUpstream]
    split
    · rfl
    · split
      · split <;> rfl
      · rfl

/-- The post-validation phase never reports an invalid request: its status is
502 or 200. -/
theorem rngUpstream_status (mi ma : Int) (k : Option String) (tr : Transport)
    (store : SignedStore) (now : Nat) (e : Entropy16) :
    (rngUpstream mi ma k tr store now e).status = 502 ∨
    (rngUpstream mi ma k tr store now e).status = 200 := by
  cases tr with
  | threw msg => exact Or.inl rfl
  | responded resp =>
    simp only [rngUpstream]
    split
    · exact Or.inl rfl
    · split
      · split
        · exact Or.inl rfl
        · exact Or.inr rfl
      · exact Or.inl rfl

/-- C2: the generate operation answers 400 Invalid Request, makes no
provider call and leaves the store unchanged exactly when one of the query
parameters does not coerce to an integer or the coerced maximum is below the
coerced minimum; whenever both coerce to integers `mi ≤ ma`, validation
passes and exactly one provider call is made. -/
theorem rng_validation_spec (qmin qmax apiKey : Option String) (tr : Transport)
    (store : SignedStore) (now : Nat) (entropy : Entropy16) :
    (((rngHandler qmin qmax apiKey tr store now entropy).status = 400 ∧
      (rngHandler qmin qmax apiKey tr store now entropy).calls = [] ∧
      (rngHandler qmin qmax apiKey tr store now entropy).store = store) ↔
      ¬ ∃ mi ma : Int, jsQueryNumber qmin = JsNum.num (mi : ℚ) ∧
          jsQueryNumber qmax = JsNum.num (ma : ℚ) ∧ mi ≤ ma) ∧
    ((∃ mi ma : Int, jsQueryNumber qmin = JsNum.num (mi : ℚ) ∧
        jsQueryNumber qmax = JsNum.num (ma : ℚ) ∧ mi ≤ ma) →
      (rngHandler qmin qmax apiKey tr store now entropy).calls.length = 1) := by
  rcases h1 : (jsQueryNumber qmin).toIntOpt with _ | mi
  · have hne : ∀ mi : Int, jsQueryNumber qmin ≠ JsNum.num (mi : ℚ) := by
      intro mi hc
      rw [(toIntOpt_eq_some _ mi).mpr hc] at h1
      cases h1
    constructor
    · simp only [rngHandler, h1, rngInvalidOutcome]
      refine ⟨fun _ => ?_, fun _ => ⟨trivial, trivial, trivial⟩⟩
      rintro ⟨mi, ma, hmi, hma, hle⟩
      exact hne mi hmi
    · rintro ⟨mi, ma, hmi, hma, hle⟩
      exact absurd hmi (hne mi)
  · rcases h2 : (jsQueryNumber qmax).toIntOpt with _ | ma
    · have hne : ∀ ma : Int, jsQueryNumber qmax ≠ JsNum.num (ma : ℚ) := by
        intro ma hc
        rw [(toIntOpt_eq_some _ ma).mpr hc] at h2
        cases h2
      constructor
      · simp only [rngHandler, h1, h2, rngInvalidOutcome]
        refine ⟨fun _ => ?_, fun _ => ⟨trivial, trivial, trivial⟩⟩
        rintro ⟨mi, ma, hmi, hma, hle⟩
        exact hne ma hma
      · rintro ⟨mi, ma, hmi, hma, hle⟩
        exact absurd hma (hne ma)
    · have hmi := (toIntOpt_eq_some _ mi).mp h1
      have hma := (toIntOpt_eq_some _ ma).mp h2
      by_cases hlt : ma < mi
      · constructor
        · simp only [rngHandler, h1, h2, hlt, if_true, rngInvalidOutcome]
          refine ⟨fun _ => ?_, fun _ => ⟨trivial, trivial, trivial⟩⟩
          rintro ⟨mi2, ma2, hmi2, hma2, hle2⟩
          rw [hmi] at hmi2
          rw [hma] at hma2
          have emi : mi = mi2 := by
            have := JsNum.num.inj hmi2
            exact_mod_cast this
          have ema : ma = ma2 := by
            have := JsNum.num.inj hma2
            exact_mod_cast this
          omega
        · rintro ⟨mi2, ma2, hmi2, hma2, hle2⟩
          rw [hmi] at hmi2
          rw [hma] at hma2
          have emi : mi = mi2 := by
            have := JsNum.num.inj hmi2
            exact_mod_cast this
          have ema : ma = ma2 := by
            have := JsNum.num.inj hma2
            exact_mod_cast this
          omega
      · have hred : rngHandler qmin qmax apiKey tr store now entropy =
            rngUpstream mi ma apiKey tr store now entropy := by
          simp only [rngHandler, h1, h2, hlt, if_false]
        constructor
        · rw [hred]
          constructor
          · intro hst
            rcases rngUpstream_status mi ma apiKey tr store now entropy with h | h <;>
              rw [h] at hst <;> cases hst.1
          · intro hcon
            exact absurd ⟨mi, ma, hmi, hma, by omega⟩ hcon
        · intro _
          rw [hred, rngUpstream_calls]
          rfl

/-- Concrete instantiation of `rng_validation_spec`: the request with
`min=5`, `max=1` is rejected with 400 before any provider call, and the
request with `min=1`, `max=2` reaches the provider. -/
theorem rng_validation_spec_witness :
    (rngHandler (some "5") (some "1") none (Transport.threw "m")
       [] 0 ⟨0, 0, 0, 0, 0, 0, 0, 0, 0, 0, 0, 0, 0, 0, 0, 0⟩).status = 400 ∧
    (rngHandler (some "5") (some "1") none (Transport.threw "m")
       [] 0 ⟨0, 0, 0, 0, 0, 0, 0, 0, 0, 0, 0, 0, 0, 0, 0, 0⟩).calls = [] ∧
    (rngHandler (some "1") (some "2") none (Transport.threw "m")
       [] 0 ⟨0, 0, 0, 0, 0, 0, 0, 0, 0, 0, 0, 0, 0, 0, 0, 0⟩).calls.length = 1 := by
  have h1 := (rng_validation_spec (some "5") (some "1") none (Transport.threw "m")
    [] 0 ⟨0, 0, 0, 0, 0, 0, 0, 0, 0, 0, 0, 0, 0, 0, 0, 0⟩).1.mpr (by
      rintro ⟨mi, ma, hmi, hma, hle⟩
      rw [show jsQueryNumber (some "5") = JsNum.num 5 from by decide] at hmi
      rw [show jsQueryNumber (some "1") = JsNum.num 1 from by decide] at hma
      have e1 : (5 : ℚ) = (mi : ℚ) := JsNum.num.inj hmi
      have e2 : (1 : ℚ) = (ma : ℚ) := JsNum.num.inj hma
      have e3 : mi = 5 := by exact_mod_cast e1.symm
      have e4 : ma = 1 := by exact_mod_cast e2.symm
      omega)
  have h2 := (rng_validation_spec (some "1") (some "2") none (Transport.threw "m")
    [] 0 ⟨0, 0, 0, 0, 0, 0, 0, 0, 0, 0, 0, 0, 0, 0, 0, 0⟩).2
    ⟨1, 2, by decide, by decide, by omega⟩
  exact ⟨h1.1, h1.2.1, h2⟩

/-- C6: whenever validation passes, the single request sent to the provider
is the signed-integer generation call `generateSignedIntegers` asking for
exactly one value (`n: 1`), with replacement enabled, in base 10, with the
coerced bounds passed through unchanged, together with the credential and
the wall-clock request id. -/
theorem generate_provider_request (qmin qmax apiKey : Option String) (tr : Transport)
    (store : SignedStore) (now : Nat) (entropy : Entropy16) (mi ma : Int)
    (hmi : jsQueryNumber qmin = JsNum.num (mi : ℚ))
    (hma : jsQueryNumber qmax = JsNum.num (ma : ℚ))
    (hle : mi ≤ ma) :
    (rngHandler qmin qmax apiKey tr store now entropy).calls =
      [Json.obj [("jsonrpc", Json.str "2.0"),
                 ("method", Json.str "generateSignedIntegers"),
                 ("params", Json.obj (apiKeyField apiKey ++
                   [("n", Json.num 1), ("min", Json.num (mi : ℚ)), ("max", Json.num (ma : ℚ)),
                    ("replacement", Json.bool true), ("base", Json.num 10)])),
                 ("id", Json.num (now : ℚ))]] := by
  have h1 : (jsQueryNumber qmin).toIntOpt = some mi := (toIntOpt_eq_some _ mi).mpr hmi
  have h2 : (jsQueryNumber qmax).toIntOpt = some ma := (toIntOpt_eq_some _ ma).mpr hma
  have hlt : ¬ ma < mi := by omega
  simp only [rngHandler, h1, h2, hlt, if_false]
  rw [rngUpstream_calls]
  rfl

/-- Concrete instantiation of `generate_provider_request` at `min=1`,
`max=2`, key `KEY`, clock 9. -/
theorem generate_provider_request_witness :
    (rngHandler (some "1") (some "2") (some "KEY") (Transport.threw "m")
       [] 9 ⟨0, 0, 0, 0, 0, 0, 0, 0, 0, 0, 0, 0, 0, 0, 0, 0⟩).calls =
      [Json.obj [("jsonrpc", Json.str "2.0"),
                 ("method", Json.str "generateSignedIntegers"),
                 ("params", Json.obj (apiKeyField (some "KEY") ++
                   [("n", Json.num 1), ("min", Json.num ((1 : Int) : ℚ)),
                    ("max", Json.num ((2 : Int) : ℚ)),
                    ("replacement", Json.bool true), ("base", Json.num 10)])),
                 ("id", Json.num ((9 : Nat) : ℚ))]] :=
  generate_provider_request (some "1") (some "2") (some "KEY") (Transport.threw "m")
    [] 9 ⟨0, 0, 0, 0, 0, 0, 0, 0, 0, 0, 0, 0, 0, 0, 0, 0⟩ 1 2
    (by decide) (by decide) (by omega)

/-- C10: the generate validation is `Number()` coercion followed by an
integer test, so an empty or whitespace-only parameter coerces to the
integer 0 and is accepted (a generate request with empty `min` and `max`
proceeds as the range 0 to 0), and hexadecimal or exponent strings such as
`0x10` or `1e2` are accepted as the integers they denote rather than being
rejected as invalid. -/
theorem number_coercion_quirks :
    jsStringToNumber "" = JsNum.num 0 ∧
    jsStringToNumber " " = JsNum.num 0 ∧
    jsStringToNumber "0x10" = JsNum.num 16 ∧
    jsStringToNumber "1e2" = JsNum.num 100 ∧
    (rngHandler (some "") (some "") none (Transport.threw "m")
       [] 0 ⟨0, 0, 0, 0, 0, 0, 0, 0, 0, 0, 0, 0, 0, 0, 0, 0⟩).status ≠ 400 ∧
    (rngHandler (some "") (some "") none (Transport.threw "m")
       [] 0 ⟨0, 0, 0, 0, 0, 0, 0, 0, 0, 0, 0, 0, 0, 0, 0, 0⟩).calls =
      [generatePayload none 0 0 0] ∧
    (rngHandler (some "0x10") (some "1e2") none (Transport.threw "m")
       [] 0 ⟨0, 0, 0, 0, 0, 0, 0, 0, 0, 0, 0, 0, 0, 0, 0, 0⟩).status ≠ 400 ∧
    (rngHandler (some "0x10") (some "1e2") none (Transport.threw "m")
       [] 0 ⟨0, 0, 0, 0, 0, 0, 0, 0, 0, 0, 0, 0, 0, 0, 0, 0⟩).calls =
      [generatePayload none 16 100 0] := by
  refine ⟨by decide, by decide, by decide, by decide, by decide, rfl, by decide, rfl⟩

/-- A get that returns an entry leaves the store exactly as it was. -/
theorem getSignedResult_some (id : String) (store : SignedStore) (now : Nat)
    (v : StoredEntry) (h : (getSignedResult id store now).1 = some v) :
    getSignedResult id store now = (some v, store) := by
  rcases hl : storeLookup store id with _ | w
  · rw [getSignedResult, hl] at h
    cases h
  · by_cases hexp : now - w.storedAt > SIGNED_TTL_MS
    · simp only [getSignedResult, hl, hexp, if_true, if_pos] at h
      cases h
    · simp only [getSignedResult, hl, hexp, if_false, if_neg, not_false_iff] at h ⊢
      rw [h]

/-- When the reference resolves, the verification handler makes exactly one
provider call, replaying the stored random block and signature. -/
theorem verifyHandler_calls_of_live (id : String) (k : Option String) (tr : Transport)
    (store : SignedStore) (now : Nat) (v : StoredEntry)
    (h : getSignedResult id store now = (some v, store)) :
    (verifyHandler id k tr store now).calls = [verifyPayload v.random v.signature now] := by
  cases tr with
  | threw msg =>
    simp only [verifyHandler, h]
  | responded resp =>
    simp only [verifyHandler, h]
    split
    · rfl
    · split
      · rfl
      · rfl

/-- Exhaustive shape analysis of the post-validation phase: either it fails
with 502, leaves the store unchanged, issues no reference and its body has
no value and no verification link, or the provider response passed every
check and the outcome is the 200 success outcome built from the extracted
value, random block and signature, with the proof stored under the fresh
reference. -/
theorem rngUpstream_shape (mi ma : Int) (k : Option String) (tr : Transport)
    (store : SignedStore) (now : Nat) (e : Entropy16) :
    ((rngUpstream mi ma k tr store now e).status = 502 ∧
     (rngUpstream mi ma k tr store now e).store = store ∧
     (rngUpstream mi ma k tr store now e).ref = none ∧
     (rngUpstream mi ma k tr store now e).body.field "value" = none ∧
     (rngUpstream mi ma k tr store now e).body.field "verifyUrl" = none) ∨
    ∃ resp v r sig,
      tr = Transport.responded resp ∧
      resp.ok = true ∧ jsTruthy resp.body = true ∧
      jsTruthy (optField resp.body "error") = false ∧
      optIdx (optField (optField (optField resp.body "result") "random") "data") 0 =
        some (Json.num v) ∧
      v.isInt = true ∧
      optField (optField resp.body "result") "random" = some r ∧
      r.truthy = true ∧
      optField (optField resp.body "result") "signature" = some (Json.str sig) ∧
      rngUpstream mi ma k tr store now e =
        ⟨200, rngSuccessBody v mi ma r (randomUUID e),
         storeSet store (randomUUID e) ⟨r, sig, now⟩,
         [generatePayload k mi ma now], some (randomUUID e)⟩ := by
  cases tr with
  | threw msg => exact Or.inl ⟨rfl, rfl, rfl, rfl, rfl⟩
  | responded resp =>
    simp only [rngUpstream]
    by_cases hg : (!resp.ok || !jsTruthy resp.body || jsTruthy (optField resp.body "error")) = true
    · rw [if_pos hg]
      exact Or.inl ⟨rfl, rfl, rfl, rfl, rfl⟩
    · rw [if_neg hg]
      have hg2 : resp.ok = true ∧ jsTruthy resp.body = true ∧
          jsTruthy (optField resp.body "error") = false := by
        rcases ho : resp.ok <;> rcases hb : jsTruthy resp.body <;>
          rcases he : jsTruthy (optField resp.body "error") <;>
          simp [ho, hb, he] at hg ⊢
      split
      next v r sig heq1 heq2 heq3 =>
        by_cases hv : (!v.isInt || !r.truthy) = true
        · rw [if_pos hv]
          exact Or.inl ⟨rfl, rfl, rfl, rfl, rfl⟩
        · rw [if_neg hv]
          have hv2 : v.isInt = true ∧ r.truthy = true := by
            rcases hvi : v.isInt <;> rcases hrt : r.truthy <;> simp [hvi, hrt] at hv ⊢
          exact Or.inr ⟨resp, v, r, sig, rfl, hg2.1, hg2.2.1, hg2.2.2,
            heq1, hv2.1, heq2, hv2.2, heq3, rfl⟩
      next =>
        exact Or.inl ⟨rfl, rfl, rfl, rfl, rfl⟩

/-- The post-validation phase sends its credential only to the provider: the
status, body, store and reference it produces do not depend on it. -/
theorem rngUpstream_key_independent (mi ma : Int) (k1 k2 : Option String) (tr : Transport)
    (store : SignedStore) (now : Nat) (e : Entropy16) :
    (rngUpstream mi ma k1 tr store now e).status = (rngUpstream mi ma k2 tr store now e).status ∧
    (rngUpstream mi ma k1 tr store now e).body = (rngUpstream mi ma k2 tr store now e).body ∧
    (rngUpstream mi ma k1 tr store now e).store = (rngUpstream mi ma k2 tr store now e).store ∧
    (rngUpstream mi ma k1 tr store now e).ref = (rngUpstream mi ma k2 tr store now e).ref := by
  cases tr with
  | threw msg => exact ⟨rfl, rfl, rfl, rfl⟩
  | responded resp =>
    simp only [rngUpstream]
    split
    · exact ⟨rfl, rfl, rfl, rfl⟩
    · split
      · split
        · exact ⟨rfl, rfl, rfl, rfl⟩
        · exact ⟨rfl, rfl, rfl, rfl⟩
      · exact ⟨rfl, rfl, rfl, rfl⟩

/-- C8: the provider credential never reaches a client-visible output.  Two
runs of the generate handler that differ only in the credential, with the
same provider behavior, produce the same status, response body, store and
reference (only the provider-bound request differs); two such runs of the
verification handler produce identical outcomes in full. -/
theorem credential_not_in_responses (qmin qmax k1 k2 : Option String)
    (tr : Transport) (store : SignedStore) (now : Nat) (entropy : Entropy16)
    (id : String) (tr2 : Transport) (store2 : SignedStore) (now2 : Nat) :
    ((rngHandler qmin qmax k1 tr store now entropy).status =
       (rngHandler qmin qmax k2 tr store now entropy).status ∧
     (rngHandler qmin qmax k1 tr store now entropy).body =
       (rngHandler qmin qmax k2 tr store now entropy).body ∧
     (rngHandler qmin qmax k1 tr store now entropy).store =
       (rngHandler qmin qmax k2 tr store now entropy).store ∧
     (rngHandler qmin qmax k1 tr store now entropy).ref =
       (rngHandler qmin qmax k2 tr store now entropy).ref) ∧
    verifyHandler id k1 tr2 store2 now2 = verifyHandler id k2 tr2 store2 now2 := by
  constructor
  · rcases h1 : (jsQueryNumber qmin).toIntOpt with _ | mi
    · have hred : ∀ kk : Option String,
          rngHandler qmin qmax kk tr store now entropy = rngInvalidOutcome store := by
        intro kk
        simp only [rngHandler, h1]
      rw [hred k1, hred k2]
      exact ⟨rfl, rfl, rfl, rfl⟩
    · rcases h2 : (jsQueryNumber qmax).toIntOpt with _ | ma
      · have hred : ∀ kk : Option String,
            rngHandler qmin qmax kk tr store now entropy = rngInvalidOutcome store := by
          intro kk
          simp only [rngHandler, h1, h2]
        rw [hred k1, hred k2]
        exact ⟨rfl, rfl, rfl, rfl⟩
      · by_cases hlt : ma < mi
        · have hred : ∀ kk : Option String,
              rngHandler qmin qmax kk tr store now entropy = rngInvalidOutcome store := by
            intro kk
            simp only [rngHandler, h1, h2, hlt, if_true]
          rw [hred k1, hred k2]
          exact ⟨rfl, rfl, rfl, rfl⟩
        · have hred : ∀ kk : Option String,
              rngHandler qmin qmax kk tr store now entropy =
                rngUpstream mi ma kk tr store now entropy := by
            intro kk
            simp only [rngHandler, h1, h2, hlt, if_false]
          rw [hred k1, hred k2]
          exact rngUpstream_key_independent mi ma k1 k2 tr store now entropy
  · rfl

/-- Inverse of `hexChar` on lowercase hexadecimal digits. -/
def unhex (c : Char) : Nat :=
  if 97 ≤ c.toNat then c.toNat - 87 else c.toNat - 48

/-- Reading one lowercase hexadecimal digit back recovers the value. -/
theorem unhex_hexChar_digit : ∀ x < 16, unhex (hexChar x) = x := by
  decide

/-- Reading a byte back from its two lowercase hexadecimal digits recovers
the byte. -/
theorem unhex_hexChar (b : Nat) (hb : b < 256) :
    16 * unhex (hexChar (b / 16)) + unhex (hexChar (b % 16)) = b := by
  rw [unhex_hexChar_digit (b / 16) (by omega), unhex_hexChar_digit (b % 16) (by omega)]
  omega

/-- Decoder of the canonical 8-4-4-4-12 UUID rendering back into its sixteen
bytes; `none` on any other shape. -/
def uuidBytes (s : String) : Option Entropy16 :=
  match s.data with
  | x0 :: x1 :: x2 :: x3 :: x4 :: x5 :: x6 :: x7 :: '-' :: x8 :: x9 :: x10 :: x11 :: '-' ::
      x12 :: x13 :: x14 :: x15 :: '-' :: x16 :: x17 :: x18 :: x19 :: '-' :: x20 :: x21 ::
      x22 :: x23 :: x24 :: x25 :: x26 :: x27 :: x28 :: x29 :: x30 :: x31 :: [] =>
    some ⟨16 * unhex x0 + unhex x1, 16 * unhex x2 + unhex x3,
          16 * unhex x4 + unhex x5, 16 * unhex x6 + unhex x7,
          16 * unhex x8 + unhex x9, 16 * unhex x10 + unhex x11,
          16 * unhex x12 + unhex x13, 16 * unhex x14 + unhex x15,
          16 * unhex x16 + unhex x17, 16 * unhex x18 + unhex x19,
          16 * unhex x20 + unhex x21, 16 * unhex x22 + unhex x23,
          16 * unhex x24 + unhex x25, 16 * unhex x26 + unhex x27,
          16 * unhex x28 + unhex x29, 16 * unhex x30 + unhex x31⟩
  | _ => none

/-- Decoding the UUID produced from in-range entropy recovers exactly the
masked bytes: the token determines, and is determined by, the 122 free bits
together with the fixed version and variant bits. -/
theorem uuidBytes_randomUUID (e : Entropy16) (h : e.inRange) :
    uuidBytes (randomUUID e) = some (uuidMask e) := by
  obtain ⟨b0, b1, b2, b3, b4, b5, b6, b7, b8, b9, b10, b11, b12, b13, b14, b15⟩ := e
  obtain ⟨h0, h1, h2, h3, h4, h5, h6, h7, h8, h9, h10, h11, h12, h13, h14, h15⟩ := h
  simp only [randomUUID, uuidChars, uuidMask, byteHexChars, List.cons_append,
    List.nil_append, uuidBytes]
  rw [unhex_hexChar b0 h0, unhex_hexChar b1 h1, unhex_hexChar b2 h2, unhex_hexChar b3 h3,
    unhex_hexChar b4 h4, unhex_hexChar b5 h5,
    unhex_hexChar (64 + b6 % 16) (by omega), unhex_hexChar b7 h7,
    unhex_hexChar (128 + b8 % 64) (by omega), unhex_hexChar b9 h9,
    unhex_hexChar b10 h10, unhex_hexChar b11 h11, unhex_hexChar b12 h12,
    unhex_hexChar b13 h13, unhex_hexChar b14 h14, unhex_hexChar b15 h15]

/-- C7 counterexample: two distinct sixteen-byte entropy draws (differing
only in the high nibble of byte 6, which the version mask discards) yield
the same proof reference, so a reference does not carry 128 independent
random bits. -/
theorem proofReference_not_128_bits :
    (storeSignedResult ⟨0, 0, 0, 0, 0, 0, 0, 0, 0, 0, 0, 0, 0, 0, 0, 0⟩ Json.null "s" 0 []).1 =
      (storeSignedResult ⟨0, 0, 0, 0, 0, 0, 16, 0, 0, 0, 0, 0, 0, 0, 0, 0⟩ Json.null "s" 0 []).1 ∧
    (⟨0, 0, 0, 0, 0, 0, 0, 0, 0, 0, 0, 0, 0, 0, 0, 0⟩ : Entropy16) ≠
      ⟨0, 0, 0, 0, 0, 0, 16, 0, 0, 0, 0, 0, 0, 0, 0, 0⟩ :=
  ⟨rfl, by decide⟩

/-- C7 amended: a proof reference issued by the put operation is a
version-4 UUID computed from sixteen bytes of cryptographically strong
entropy and nothing else — it does not depend on the clock, the stored
proof, or the store contents — and two references coincide exactly when the
masked bytes coincide, so a reference carries exactly the 122 entropy bits
left free by the fixed version and variant bits (not 128). -/
theorem proofReference_122_random_bits (e1 e2 : Entropy16)
    (h1 : e1.inRange) (h2 : e2.inRange) (r1 r2 : Json) (s1 s2 : String)
    (n1 n2 : Nat) (st1 st2 : SignedStore) :
    (storeSignedResult e1 r1 s1 n1 st1).1 = (storeSignedResult e2 r2 s2 n2 st2).1 ↔
      uuidMask e1 = uuidMask e2 := by
  show randomUUID e1 = randomUUID e2 ↔ uuidMask e1 = uuidMask e2
  constructor
  · intro h
    have d1 := uuidBytes_randomUUID e1 h1
    have d2 := uuidBytes_randomUUID e2 h2
    rw [h, d2] at d1
    exact (Option.some.inj d1).symm
  · intro h
    simp only [randomUUID, uuidChars, h]

/-- Concrete instantiation of `proofReference_122_random_bits` at the two
entropy draws of the counterexample, discharging the byte-range
hypotheses. -/
theorem proofReference_122_random_bits_witness :
    (⟨0, 0, 0, 0, 0, 0, 0, 0, 0, 0, 0, 0, 0, 0, 0, 0⟩ : Entropy16).inRange ∧
    (⟨0, 0, 0, 0, 0, 0, 16, 0, 0, 0, 0, 0, 0, 0, 0, 0⟩ : Entropy16).inRange ∧
    ((storeSignedResult ⟨0, 0, 0, 0, 0, 0, 0, 0, 0, 0, 0, 0, 0, 0, 0, 0⟩ Json.null "a" 0 []).1 =
        (storeSignedResult ⟨0, 0, 0, 0, 0, 0, 16, 0, 0, 0, 0, 0, 0, 0, 0, 0⟩ Json.null "b" 1
          [("x", ⟨Json.null, "s", 0⟩)]).1 ↔
      uuidMask ⟨0, 0, 0, 0, 0, 0, 0, 0, 0, 0, 0, 0, 0, 0, 0, 0⟩ =
        uuidMask ⟨0, 0, 0, 0, 0, 0, 16, 0, 0, 0, 0, 0, 0, 0, 0, 0⟩) :=
  ⟨by decide, by decide,
   proofReference_122_random_bits ⟨0, 0, 0, 0, 0, 0, 0, 0, 0, 0, 0, 0, 0, 0, 0, 0⟩
     ⟨0, 0, 0, 0, 0, 0, 16, 0, 0, 0, 0, 0, 0, 0, 0, 0⟩ (by decide) (by decide)
     Json.null Json.null "a" "b" 0 1 [] [("x", ⟨Json.null, "s", 0⟩)]⟩

/-- The success body carries the drawn value under the `value` key. -/
theorem rngSuccessBody_field_value (v : ℚ) (mi ma : Int) (r : Json) (id : String) :
    (rngSuccessBody v mi ma r id).field "value" = some (Json.num v) := rfl

/-- The success body carries the verification link under the `verifyUrl`
key, whether or not the optional passthrough fields are present. -/
theorem rngSuccessBody_field_verifyUrl (v : ℚ) (mi ma : Int) (r : Json) (id : String) :
    (rngSuccessBody v mi ma r id).field "verifyUrl" =
      some (Json.str ("/verify/" ++ encodeURIComponentJs id)) := by
  cases hc : r.field "completionTime" <;> cases hs : r.field "serialNumber" <;>
    simp only [rngSuccessBody, hc, hs, optJsonField] <;> rfl

/-- C4: once validation has passed, a provider call that throws, answers
non-ok, yields an unparseable or falsy body, carries an application-level
error object, or lacks the expected integer value, truthy random block or
string signature makes the generate operation answer 502 with the store
unchanged, no reference issued and no value in the body; conversely a
response body carrying a value is the 200 success response, whose reference
is live in the resulting store and backs the verification link — a number
is never returned without its proof reference. -/
theorem rng_upstream_failure_spec (qmin qmax apiKey : Option String) (tr : Transport)
    (store : SignedStore) (now : Nat) (entropy : Entropy16) (mi ma : Int)
    (hmi : jsQueryNumber qmin = JsNum.num (mi : ℚ))
    (hma : jsQueryNumber qmax = JsNum.num (ma : ℚ))
    (hle : mi ≤ ma) :
    (((∃ msg, tr = Transport.threw msg) ∨
      ∃ resp, tr = Transport.responded resp ∧
        (resp.ok = false ∨ jsTruthy resp.body = false ∨
         jsTruthy (optField resp.body "error") = true ∨
         isIntegerJson (optIdx (optField (optField (optField resp.body "result") "random") "data") 0) = false ∨
         jsTruthy (optField (optField resp.body "result") "random") = false ∨
         isStringJson (optField (optField resp.body "result") "signature") = false)) →
      (rngHandler qmin qmax apiKey tr store now entropy).status = 502 ∧
      (rngHandler qmin qmax apiKey tr store now entropy).store = store ∧
      (rngHandler qmin qmax apiKey tr store now entropy).ref = none ∧
      (rngHandler qmin qmax apiKey tr store now entropy).body.field "value" = none) ∧
    ((rngHandler qmin qmax apiKey tr store now entropy).body.field "value" ≠ none →
      (rngHandler qmin qmax apiKey tr store now entropy).status = 200 ∧
      ∃ id, (rngHandler qmin qmax apiKey tr store now entropy).ref = some id ∧
        (rngHandler qmin qmax apiKey tr store now entropy).body.field "verifyUrl" =
          some (Json.str ("/verify/" ++ encodeURIComponentJs id)) ∧
        (getSignedResult id (rngHandler qmin qmax apiKey tr store now entropy).store now).1 ≠
          none) := by
  have h1 : (jsQueryNumber qmin).toIntOpt = some mi := (toIntOpt_eq_some _ mi).mpr hmi
  have h2 : (jsQueryNumber qmax).toIntOpt = some ma := (toIntOpt_eq_some _ ma).mpr hma
  have hlt : ¬ ma < mi := by omega
  have hred : rngHandler qmin qmax apiKey tr store now entropy =
      rngUpstream mi ma apiKey tr store now entropy := by
    simp only [rngHandler, h1, h2, hlt, if_false]
  rw [hred]
  rcases rngUpstream_shape mi ma apiKey tr store now entropy with L | R
  · exact ⟨fun _ => ⟨L.1, L.2.1, L.2.2.1, L.2.2.2.1⟩,
      fun hv => absurd L.2.2.2.1 hv⟩
  · obtain ⟨resp, v, r, sig, htr, hok, htb, herr, hval, hvi, hrnd, hrt, hsig, hout⟩ := R
    constructor
    · rintro (⟨msg, heq⟩ | ⟨resp2, heq2, hbad⟩)
      · rw [htr] at heq
        cases heq
      · rw [htr] at heq2
        have hresp : resp2 = resp := (Transport.responded.inj heq2).symm
        subst hresp
        rcases hbad with hb | hb | hb | hb | hb | hb
        · rw [hok] at hb
          cases hb
        · rw [htb] at hb
          cases hb
        · rw [herr] at hb
          cases hb
        · rw [hval] at hb
          simp only [isIntegerJson, hvi] at hb
          cases hb
        · rw [hrnd] at hb
          simp only [jsTruthy, hrt] at hb
          cases hb
        · rw [hsig] at hb
          simp only [isStringJson] at hb
          cases hb
    · intro _
      rw [hout]
      refine ⟨rfl, randomUUID entropy, rfl, rngSuccessBody_field_verifyUrl v mi ma r _, ?_⟩
      have hl := storeLookup_set_self store (randomUUID entropy) ⟨r, sig, now⟩
      have hnotexp : ¬ now - now > SIGNED_TTL_MS := by omega
      simp [getSignedResult, hl, hnotexp]

/-- Concrete instantiation of `rng_upstream_failure_spec`: a provider
response lacking the signature field makes generate fail with 502 and adds
nothing to the store. -/
theorem rng_upstream_failure_spec_witness :
    (rngHandler (some "1") (some "2") none
       (Transport.responded ⟨true, 200, some (Json.obj [("result", Json.obj
          [("random", Json.obj [("data", Json.arr [Json.num 7])])])])⟩)
       [] 0 ⟨0, 0, 0, 0, 0, 0, 0, 0, 0, 0, 0, 0, 0, 0, 0, 0⟩).status = 502 ∧
    (rngHandler (some "1") (some "2") none
       (Transport.responded ⟨true, 200, some (Json.obj [("result", Json.obj
          [("random", Json.obj [("data", Json.arr [Json.num 7])])])])⟩)
       [] 0 ⟨0, 0, 0, 0, 0, 0, 0, 0, 0, 0, 0, 0, 0, 0, 0, 0⟩).store = [] := by
  have h := (rng_upstream_failure_spec (some "1") (some "2") none
    (Transport.responded ⟨true, 200, some (Json.obj [("result", Json.obj
       [("random", Json.obj [("data", Json.arr [Json.num 7])])])])⟩)
    [] 0 ⟨0, 0, 0, 0, 0, 0, 0, 0, 0, 0, 0, 0, 0, 0, 0, 0⟩ 1 2
    (by decide) (by decide) (by omega)).1
    (Or.inr ⟨_, rfl, Or.inr (Or.inr (Or.inr (Or.inr (Or.inr (by decide)))))⟩)
  exact ⟨h.1, h.2.1⟩

/-- C5 counterexample: with a live reference, a provider verify response
that parses, is ok and carries no error object but lacks the authenticity
field is answered 200 with authenticity false — the handler coerces the
missing field through Boolean() instead of failing with the upstream-error
outcome the claim requires for a malformed response. -/
theorem verify_missing_authenticity_counterexample :
    (verifyHandler "ref1" none
       (Transport.responded ⟨true, 200, some (Json.obj [("result", Json.obj [])])⟩)
       [("ref1", ⟨Json.null, "SG", 0⟩)] 0).status = 200 ∧
    (verifyHandler "ref1" none
       (Transport.responded ⟨true, 200, some (Json.obj [("result", Json.obj [])])⟩)
       [("ref1", ⟨Json.null, "SG", 0⟩)] 0).body.field "authenticity" =
      some (Json.bool false) :=
  ⟨rfl, rfl⟩

/-- C5 amended: on a live reference the verification handler fails with 502
exactly when the transport throws, the response is non-ok, its body is
unparseable or falsy, or it carries an application-level error object; for
any other response it answers 200 and reports the Boolean() coercion of the
authenticity field — in particular it returns exactly the boolean the
provider reports when that field is a boolean, while a response missing the
field is reported as authenticity false rather than as a failure. -/
theorem verify_authenticity_spec (id : String) (k : Option String) (tr : Transport)
    (store : SignedStore) (now : Nat) (v : StoredEntry)
    (hlive : (getSignedResult id store now).1 = some v) :
    (((∃ msg, tr = Transport.threw msg) ∨
      ∃ resp, tr = Transport.responded resp ∧
        (resp.ok = false ∨ jsTruthy resp.body = false ∨
         jsTruthy (optField resp.body "error") = true)) ↔
      (verifyHandler id k tr store now).status = 502) ∧
    (∀ resp, tr = Transport.responded resp → resp.ok = true →
      jsTruthy resp.body = true → jsTruthy (optField resp.body "error") = false →
      (verifyHandler id k tr store now).status = 200 ∧
      (verifyHandler id k tr store now).body.field "authenticity" =
        some (Json.bool (jsTruthy (optField (optField resp.body "result") "authenticity"))) ∧
      ∀ b, optField (optField resp.body "result") "authenticity" = some (Json.bool b) →
        (verifyHandler id k tr store now).body.field "authenticity" =
          some (Json.bool b)) := by
  have hpair := getSignedResult_some id store now v hlive
  cases tr with
  | threw msg =>
    constructor
    · constructor
      · intro _
        simp only [verifyHandler, hpair]
      · intro _
        exact Or.inl ⟨msg, rfl⟩
    · intro resp heq
      cases heq
  | responded resp =>
    rcases hok : resp.ok with _ | _
    · have hst : (verifyHandler id k (Transport.responded resp) store now).status = 502 := by
        simp [verifyHandler, hpair, hok]
      constructor
      · exact ⟨fun _ => hst, fun _ => Or.inr ⟨resp, rfl, Or.inl hok⟩⟩
      · intro resp2 heq hok2
        have hresp : resp2 = resp := (Transport.responded.inj heq).symm
        subst hresp
        rw [hok] at hok2
        cases hok2
    · rcases htb : jsTruthy resp.body with _ | _
      · have hst : (verifyHandler id k (Transport.responded resp) store now).status = 502 := by
          simp [verifyHandler, hpair, hok, htb]
        constructor
        · exact ⟨fun _ => hst, fun _ => Or.inr ⟨resp, rfl, Or.inr (Or.inl htb)⟩⟩
        · intro resp2 heq _ htb2
          have hresp : resp2 = resp := (Transport.responded.inj heq).symm
          subst hresp
          rw [htb] at htb2
          cases htb2
      · rcases herr : jsTruthy (optField resp.body "error") with _ | _
        · have hout : verifyHandler id k (Transport.responded resp) store now =
              ⟨200, Json.obj ([("ok", Json.bool true),
                 ("authenticity",
                  Json.bool (jsTruthy (optField (optField resp.body "result") "authenticity")))] ++
                 optJsonField "raw" (optField resp.body "result")), store,
               [verifyPayload v.random v.signature now]⟩ := by
            simp [verifyHandler, hpair, hok, htb, herr]
          constructor
          · constructor
            · rintro (⟨msg, heq⟩ | ⟨resp2, heq2, hbad⟩)
              · cases heq
              · have hresp : resp2 = resp := (Transport.responded.inj heq2).symm
                subst hresp
                rcases hbad with hb | hb | hb
                · rw [hok] at hb
                  cases hb
                · rw [htb] at hb
                  cases hb
                · rw [herr] at hb
                  cases hb
            · intro hst
              rw [hout] at hst
              cases hst
          · intro resp2 heq _ _ _
            have hresp : resp2 = resp := (Transport.responded.inj heq).symm
            subst hresp
            rw [hout]
            refine ⟨rfl, rfl, ?_⟩
            intro b hb
            rw [hb]
            rfl
        · have hst : (verifyHandler id k (Transport.responded resp) store now).status = 502 := by
            simp [verifyHandler, hpair, hok, htb, herr]
          constructor
          · exact ⟨fun _ => hst, fun _ => Or.inr ⟨resp, rfl, Or.inr (Or.inr herr)⟩⟩
          · intro resp2 heq _ _ herr2
            have hresp : resp2 = resp := (Transport.responded.inj heq).symm
            subst hresp
            rw [herr] at herr2
            cases herr2

/-- Concrete instantiation of `verify_authenticity_spec`: on a live
reference a provider response reporting authenticity true is answered 200
with authenticity exactly true. -/
theorem verify_authenticity_spec_witness :
    (getSignedResult "ref1" [("ref1", ⟨Json.null, "SG", 0⟩)] 5).1 =
      some ⟨Json.null, "SG", 0⟩ ∧
    (verifyHandler "ref1" none
       (Transport.responded ⟨true, 200,
         some (Json.obj [("result", Json.obj [("authenticity", Json.bool true)])])⟩)
       [("ref1", ⟨Json.null, "SG", 0⟩)] 5).status = 200 ∧
    (verifyHandler "ref1" none
       (Transport.responded ⟨true, 200,
         some (Json.obj [("result", Json.obj [("authenticity", Json.bool true)])])⟩)
       [("ref1", ⟨Json.null, "SG", 0⟩)] 5).body.field "authenticity" =
      some (Json.bool true) := by
  have h := (verify_authenticity_spec "ref1" none
    (Transport.responded ⟨true, 200,
      some (Json.obj [("result", Json.obj [("authenticity", Json.bool true)])])⟩)
    [("ref1", ⟨Json.null, "SG", 0⟩)] 5 ⟨Json.null, "SG", 0⟩ rfl).2
    ⟨true, 200, some (Json.obj [("result", Json.obj [("authenticity", Json.bool true)])])⟩
    rfl rfl (by decide) (by decide)
  exact ⟨rfl, h.1, h.2.2 true rfl⟩

/-- C1: a reference issued by a successful generate call, while still live,
resolves in the store to exactly the random block and signature extracted
from the provider generation response, unchanged; and a verify call on that
reference sends the provider exactly one replay request whose params are
precisely that stored pair. -/
theorem generate_verify_roundtrip (qmin qmax apiKey k2 : Option String)
    (tr tr2 : Transport) (store : SignedStore) (now now2 : Nat)
    (entropy : Entropy16) (id : String)
    (hsucc : (rngHandler qmin qmax apiKey tr store now entropy).ref = some id)
    (hlive : now2 - now ≤ SIGNED_TTL_MS) :
    ∃ resp r sig,
      tr = Transport.responded resp ∧
      optField (optField resp.body "result") "random" = some r ∧
      optField (optField resp.body "result") "signature" = some (Json.str sig) ∧
      (getSignedResult id (rngHandler qmin qmax apiKey tr store now entropy).store now2).1 =
        some ⟨r, sig, now⟩ ∧
      (verifyHandler id k2 tr2
          (rngHandler qmin qmax apiKey tr store now entropy).store now2).calls =
        [Json.obj [("jsonrpc", Json.str "2.0"), ("method", Json.str "verifySignature"),
                   ("params", Json.obj [("random", r), ("signature", Json.str sig)]),
                   ("id", Json.num (now2 : ℚ))]] := by
  have hred : rngHandler qmin qmax apiKey tr store now entropy = rngInvalidOutcome store ∨
      ∃ mi ma : Int, rngHandler qmin qmax apiKey tr store now entropy =
        rngUpstream mi ma apiKey tr store now entropy := by
    rcases h1 : (jsQueryNumber qmin).toIntOpt with _ | mi
    · exact Or.inl (by simp only [rngHandler, h1])
    · rcases h2 : (jsQueryNumber qmax).toIntOpt with _ | ma
      · exact Or.inl (by simp only [rngHandler, h1, h2])
      · by_cases hlt : ma < mi
        · exact Or.inl (by simp only [rngHandler, h1, h2, hlt, if_true])
        · exact Or.inr ⟨mi, ma, by simp only [rngHandler, h1, h2, hlt, if_false]⟩
  rcases hred with heq | ⟨mi, ma, heq⟩
  · rw [heq] at hsucc
    cases hsucc
  · rw [heq] at hsucc ⊢
    rcases rngUpstream_shape mi ma apiKey tr store now entropy with L | R
    · rw [L.2.2.1] at hsucc
      cases hsucc
    · obtain ⟨resp, v, r, sig, htr, hok, htb, herr, hval, hvi, hrnd, hrt, hsig, hout⟩ := R
      rw [hout] at hsucc ⊢
      have hid : id = randomUUID entropy := (Option.some.inj hsucc).symm
      subst hid
      have hnotexp : ¬ now2 - now > SIGNED_TTL_MS := by omega
      have hl := storeLookup_set_self store (randomUUID entropy) ⟨r, sig, now⟩
      have hpair : getSignedResult (randomUUID entropy)
          (storeSet store (randomUUID entropy) ⟨r, sig, now⟩) now2 =
          (some ⟨r, sig, now⟩, storeSet store (randomUUID entropy) ⟨r, sig, now⟩) := by
        simp [getSignedResult, hl, hnotexp]
      refine ⟨resp, r, sig, htr, hrnd, hsig, ?_, ?_⟩
      · rw [hpair]
      · rw [verifyHandler_calls_of_live (randomUUID entropy) k2 tr2 _ now2
          ⟨r, sig, now⟩ hpair]
        rfl

/-- Concrete instantiation of `generate_verify_roundtrip`: a successful
generate stores the provider random block and signature, and a verify five
milliseconds later replays exactly that pair. -/
theorem generate_verify_roundtrip_witness :
    (rngHandler (some "1") (some "1") none
       (Transport.responded ⟨true, 200, some (Json.obj [("result", Json.obj
          [("random", Json.obj [("data", Json.arr [Json.num 1])]),
           ("signature", Json.str "SIG")])])⟩)
       [] 0 ⟨0, 0, 0, 0, 0, 0, 0, 0, 0, 0, 0, 0, 0, 0, 0, 0⟩).ref =
      some "00000000-0000-4000-8000-000000000000" ∧
    (5 : Nat) - 0 ≤ SIGNED_TTL_MS ∧
    (∃ resp r sig,
      Transport.responded (⟨true, 200, some (Json.obj [("result", Json.obj
          [("random", Json.obj [("data", Json.arr [Json.num 1])]),
           ("signature", Json.str "SIG")])])⟩ : FetchOutcome) = Transport.responded resp ∧
      optField (optField resp.body "result") "random" = some r ∧
      optField (optField resp.body "result") "signature" = some (Json.str sig) ∧
      (getSignedResult "00000000-0000-4000-8000-000000000000"
        (rngHandler (some "1") (some "1") none
          (Transport.responded ⟨true, 200, some (Json.obj [("result", Json.obj
             [("random", Json.obj [("data", Json.arr [Json.num 1])]),
              ("signature", Json.str "SIG")])])⟩)
          [] 0 ⟨0, 0, 0, 0, 0, 0, 0, 0, 0, 0, 0, 0, 0, 0, 0, 0⟩).store 5).1 =
        some ⟨r, sig, 0⟩ ∧
      (verifyHandler "00000000-0000-4000-8000-000000000000" none (Transport.threw "t")
        (rngHandler (some "1") (some "1") none
          (Transport.responded ⟨true, 200, some (Json.obj [("result", Json.obj
             [("random", Json.obj [("data", Json.arr [Json.num 1])]),
              ("signature", Json.str "SIG")])])⟩)
          [] 0 ⟨0, 0, 0, 0, 0, 0, 0, 0, 0, 0, 0, 0, 0, 0, 0, 0⟩).store 5).calls =
        [Json.obj [("jsonrpc", Json.str "2.0"), ("method", Json.str "verifySignature"),
                   ("params", Json.obj [("random", r), ("signature", Json.str sig)]),
                   ("id", Json.num ((5 : Nat) : ℚ))]]) := by
  refine ⟨by decide, by decide, ?_⟩
  exact generate_verify_roundtrip (some "1") (some "1") none none
    (Transport.responded ⟨true, 200, some (Json.obj [("result", Json.obj
       [("random", Json.obj [("data", Json.arr [Json.num 1])]),
        ("signature", Json.str "SIG")])])⟩)
    (Transport.threw "t") [] 0 5 ⟨0, 0, 0, 0, 0, 0, 0, 0, 0, 0, 0, 0, 0, 0, 0, 0⟩
    "00000000-0000-4000-8000-000000000000" (by decide) (by decide)

end RngWeb
